import Mathlib

/-!
Verification of the Lex tutorial scripts
(`lex_session_manager.py`, `lex_bot_version_manager.py`, `interactive_chat.py`).

The Python sources are shallowly embedded: every remote boto3 call is a
function parameter (the environment decides its result), a `try/except`
handler becomes a `match` on an `Except` value, and the observable outcome of
each exit path of a function (its return value together with the diagnostic it
prints on that path) is an explicit constructor of an outcome type.
Python dictionaries are association lists with first-key-wins lookup and
insert-or-overwrite assignment.
-/

set_option autoImplicit false

namespace LexDemo

/-! ## Python dictionaries of strings (session attribute bags) -/

/-- A Python `dict[str, str]`: association list, keys unique by construction
of `dictInsert`, insertion order preserved. -/
abbrev AttrBag := List (String × String)

/-- Python `d[k] = v`: overwrite the first binding of `k` in place, else append. -/
def dictInsert (k v : String) : AttrBag → AttrBag
  | [] => [(k, v)]
  | (k₀, v₀) :: rest =>
      if k₀ = k then (k₀, v) :: rest else (k₀, v₀) :: dictInsert k v rest

/-- Python `d.get(k)`: first binding wins. -/
def dictLookup (k : String) : AttrBag → Option String
  | [] => none
  | (k₀, v₀) :: rest => if k₀ = k then some v₀ else dictLookup k rest

/-! ## Data shapes of the conversation endpoint
(`lex_session_manager.py`, `recognize_text` request and response) -/

/-- A slot value inside the response (`slot_data['value']['interpretedValue']`). -/
structure SlotValue where
  interpretedValue : Option String
deriving DecidableEq

/-- One slot entry; the Python value may be `None` or lack the `value` key. -/
structure SlotData where
  value : Option SlotValue
deriving DecidableEq

/-- The `slots` mapping of an intent: slot name to possibly-null slot data. -/
abbrev Slots := List (String × Option SlotData)

/-- One element of the response `messages` list; `content` may be absent. -/
structure LexMessage where
  content : Option String
deriving DecidableEq

/-- The `intent` object of a response session state; every key may be absent. -/
structure LexIntent where
  name : Option String
  state : Option String
  slots : Option Slots
deriving DecidableEq

/-- The `sessionState` object of a response; every key may be absent. -/
structure LexSessionState where
  intent : Option LexIntent
  sessionAttributes : Option AttrBag
deriving DecidableEq

/-- A `recognize_text` response; `messages` and `sessionState` may be absent. -/
structure LexResponse where
  messages : Option (List LexMessage)
  sessionState : Option LexSessionState
deriving DecidableEq

/-- A raised boto3 exception: `ClientError` (with `e.response['Error']['Code']`
and `e.response['Error']['Message']`) or any other `Exception` (with `str(e)`). -/
inductive LexErr where
  | clientError (code msg : String)
  | exc (msg : String)
deriving DecidableEq

/-- The keyword arguments passed to `client.recognize_text`.  In the source the
optional `sessionState` entry is a one-key dict `{'sessionAttributes': bag}`;
we record that bag directly. -/
structure RecognizeTextRequest where
  botId : String
  botAliasId : String
  localeId : String
  sessionId : String
  text : String
  sessionState : Option AttrBag
deriving DecidableEq

/-- Python truthiness of the `session_attributes` argument
(`if session_attributes:` — `None` and `{}` are both falsy). -/
def attrsTruthy : Option AttrBag → Bool
  | none => false
  | some bag => !bag.isEmpty

/-- The `request_params` dict built by `send_message_to_bot` (lines 69-82):
the `sessionState` key is added only when `session_attributes` is truthy. -/
def mk_request (bot_id bot_alias_id locale_id session_id message : String)
    (session_attributes : Option AttrBag) : RecognizeTextRequest :=
  { botId := bot_id
    botAliasId := bot_alias_id
    localeId := locale_id
    sessionId := session_id
    text := message
    sessionState :=
      if attrsTruthy session_attributes then session_attributes else none }

/-- The dict returned by `send_message_to_bot` on success (lines 116-123). -/
structure BotTurn where
  bot_message : String
  intent_name : String
  intent_state : String
  slots : Slots
  session_attributes : AttrBag
  full_response : LexResponse
deriving DecidableEq

/-- `response.get('sessionState', {})` default. -/
def emptySessionState : LexSessionState := { intent := none, sessionAttributes := none }

/-- `session_state.get('intent', {})` default. -/
def emptyIntent : LexIntent := { name := none, state := none, slots := none }

/-- The response-parsing section of `send_message_to_bot` (lines 87-123):
each field is read with a `.get` default exactly as in the source. -/
def parse_response (response : LexResponse) : BotTurn :=
  let bot_message :=
    match response.messages with
    | some (m :: _) => m.content.getD ""
    | _ => ""
  let session_state := response.sessionState.getD emptySessionState
  let intent := session_state.intent.getD emptyIntent
  { bot_message := bot_message
    intent_name := intent.name.getD "Unknown"
    intent_state := intent.state.getD "Unknown"
    slots := intent.slots.getD []
    session_attributes := session_state.sessionAttributes.getD []
    full_response := response }

/-- Observable outcome of `send_message_to_bot`: the success dict, or `None`
after printing the `ClientError` message (line 126), or `None` after printing
`str(e)` for an unexpected exception (line 129). -/
inductive SendResult where
  | success (turn : BotTurn)
  | clientFailure (printed : String)
  | unexpectedFailure (printed : String)
deriving DecidableEq

/-- `send_message_to_bot` (lines 49-130), with the remote `recognize_text`
call supplied as the `client` environment. -/
def send_message_to_bot (client : RecognizeTextRequest → Except LexErr LexResponse)
    (bot_id bot_alias_id locale_id session_id message : String)
    (session_attributes : Option AttrBag) : SendResult :=
  match client (mk_request bot_id bot_alias_id locale_id session_id message
      session_attributes) with
  | Except.ok response => SendResult.success (parse_response response)
  | Except.error (LexErr.clientError _ msg) => SendResult.clientFailure msg
  | Except.error (LexErr.exc msg) => SendResult.unexpectedFailure msg

/-! ## The multi-turn conversation loop
(`simulate_multi_turn_conversation`, lines 170-215) -/

/-- The f-string keys `turn_{i}_intent` and `turn_{i}_state` (lines 208-209). -/
def turnKey (i : Nat) (suffix : String) : String :=
  "turn_" ++ toString i ++ suffix

/-- One iteration of the conversation loop as observed from outside: the
1-based turn index, the utterance sent, the attribute bag passed to
`send_message_to_bot` for this turn, and that call's result. -/
structure TraceEntry where
  turnIndex : Nat
  utterance : String
  attrsIn : AttrBag
  result : SendResult
deriving DecidableEq

/-- Placeholder entry used only to state concrete instantiations. -/
def defaultTraceEntry : TraceEntry :=
  { turnIndex := 0, utterance := "", attrsIn := [], result := SendResult.success
      (parse_response { messages := none, sessionState := none }) }

/-- `true` exactly on the success branch of `send_message_to_bot`. -/
def sendOk : SendResult → Bool
  | SendResult.success _ => true
  | _ => false

/-- The `for i, message in enumerate(conversation_steps, 1)` loop of
`simulate_multi_turn_conversation` (lines 192-212), generalized over the list
of conversation steps: on success the next turn receives the response's
attribute bag with the two `turn_{i}` bookkeeping keys assigned
(lines 205-209); on failure the loop `break`s (line 202). -/
def simulate_loop (client : RecognizeTextRequest → Except LexErr LexResponse)
    (bot_id bot_alias_id locale_id session_id : String) :
    List String → Nat → AttrBag → List TraceEntry
  | [], _, _ => []
  | message :: rest, i, attrs =>
      match send_message_to_bot client bot_id bot_alias_id locale_id session_id
          message (some attrs) with
      | SendResult.success t =>
          { turnIndex := i, utterance := message, attrsIn := attrs
            result := SendResult.success t } ::
            simulate_loop client bot_id bot_alias_id locale_id session_id rest (i + 1)
              (dictInsert (turnKey i "_state") t.intent_state
                (dictInsert (turnKey i "_intent") t.intent_name t.session_attributes))
      | r => [{ turnIndex := i, utterance := message, attrsIn := attrs, result := r }]

/-- The hard-coded `conversation_steps` list (lines 182-188). -/
def conversation_steps : List String :=
  ["Hello", "I want to order a pizza", "Large", "Pepperoni", "Yes, that\x27s correct"]

/-- `simulate_multi_turn_conversation` (lines 170-215): a fresh session id
(produced by `generate_session_id`, here passed in since the uuid draw is the
environment's randomness), initial bag `{}`, then the loop over
`conversation_steps` starting at turn 1. -/
def simulate_multi_turn_conversation
    (client : RecognizeTextRequest → Except LexErr LexResponse)
    (bot_id bot_alias_id locale_id session_id : String) : List TraceEntry :=
  simulate_loop client bot_id bot_alias_id locale_id session_id
    conversation_steps 1 []

/-! ## The build-status polling loop
(`lex_bot_version_manager.py`, `wait_for_bot_version_available`, lines 98-144) -/

/-- The part of a `describe_bot_version` response the poller reads. -/
structure DescribeBotVersionResponse where
  botStatus : String
deriving DecidableEq

/-- Observable outcome of `wait_for_bot_version_available`, one constructor per
exit path: `available` returns `True` (line 122); `buildFailed` returns `False`
after printing the failure line (line 125); `pollError` returns `False` after
printing the non-`ResourceNotFoundException` client error (line 138);
`unexpected` returns `False` after printing the unexpected exception
(line 141); `timeout` returns `False` after printing the timeout line
(line 144). -/
inductive WaitOutcome where
  | available
  | buildFailed
  | pollError (printed : String)
  | unexpected (printed : String)
  | timeout
deriving DecidableEq

/-- The return value of the source function: only `available` maps to `True`. -/
def WaitOutcome.toBool : WaitOutcome → Bool
  | WaitOutcome.available => true
  | _ => false

/-- The `while time.time() - start_time < max_wait_time` loop (lines 110-141).
`responses k` is the result of the `k`-th `describe_bot_version` call; `t` is
the elapsed wall-clock time, which advances only at the `time.sleep(15)` calls
(lines 128 and 134).  The second component counts the polls performed.
A `ResourceNotFoundException` sleeps and continues just like a non-terminal
status; any other `ClientError` or unexpected exception returns immediately. -/
def waitLoop (responses : Nat → Except LexErr DescribeBotVersionResponse)
    (max_wait_time : Nat) (k t : Nat) : WaitOutcome × Nat :=
  if _h : t < max_wait_time then
    match responses k with
    | Except.ok r =>
        if r.botStatus = "Available" then (WaitOutcome.available, 1)
        else if r.botStatus = "Failed" then (WaitOutcome.buildFailed, 1)
        else
          let rest := waitLoop responses max_wait_time (k + 1) (t + 15)
          (rest.1, rest.2 + 1)
    | Except.error (LexErr.clientError code msg) =>
        if code = "ResourceNotFoundException" then
          let rest := waitLoop responses max_wait_time (k + 1) (t + 15)
          (rest.1, rest.2 + 1)
        else (WaitOutcome.pollError msg, 1)
    | Except.error (LexErr.exc msg) => (WaitOutcome.unexpected msg, 1)
  else (WaitOutcome.timeout, 0)
termination_by max_wait_time - t
decreasing_by omega

/-- `wait_for_bot_version_available` (lines 98-144).  The source's
`max_wait_time` parameter defaults to 300; its only caller
(`create_bot_version`, line 87) uses that default. -/
def wait_for_bot_version_available
    (responses : Nat → Except LexErr DescribeBotVersionResponse)
    (max_wait_time : Nat) : WaitOutcome × Nat :=
  waitLoop responses max_wait_time 0 0

/-- A poll result on which the loop keeps going: an `ok` response whose status
is neither `Available` nor `Failed` (line 127 path), or a
`ResourceNotFoundException` client error (lines 132-135). -/
def nonterminalResp (x : Except LexErr DescribeBotVersionResponse) : Prop :=
  (∃ r, x = Except.ok r ∧ r.botStatus ≠ "Available" ∧ r.botStatus ≠ "Failed")
  ∨ (∃ msg, x = Except.error (LexErr.clientError "ResourceNotFoundException" msg))

/-- The response stream with every `ResourceNotFoundException` replaced by a
plain `Building` status report. -/
def buildingify (responses : Nat → Except LexErr DescribeBotVersionResponse) :
    Nat → Except LexErr DescribeBotVersionResponse := fun k =>
  match responses k with
  | Except.error (LexErr.clientError code msg) =>
      if code = "ResourceNotFoundException" then Except.ok { botStatus := "Building" }
      else Except.error (LexErr.clientError code msg)
  | x => x

/-! ## Version creation and alias update
(`create_bot_version` lines 51-96, `get_alias_id` lines 37-49,
`update_bot_alias` lines 146-198) -/

/-- The part of a `create_bot_version` response the caller reads (lines 79-80). -/
structure CreateBotVersionResponse where
  botVersion : String
  botStatus : String
deriving DecidableEq

/-- Observable outcome of `create_bot_version`: the new version string, or
`None` after printing the `ClientError` message (line 92), or `None` after
printing the unexpected exception (line 95). -/
inductive CreateVersionResult where
  | success (version : String)
  | clientFailure (printed : String)
  | unexpectedFailure (printed : String)
deriving DecidableEq

/-- `create_bot_version` (lines 51-96): issues the build request, and on
success calls `wait_for_bot_version_available` (line 87) — whose return value
the source discards — and then returns `new_version` (line 89). -/
def create_bot_version (createCall : Except LexErr CreateBotVersionResponse)
    (responses : Nat → Except LexErr DescribeBotVersionResponse) :
    CreateVersionResult :=
  match createCall with
  | Except.error (LexErr.clientError _ msg) => CreateVersionResult.clientFailure msg
  | Except.error (LexErr.exc msg) => CreateVersionResult.unexpectedFailure msg
  | Except.ok response =>
      let _wait := wait_for_bot_version_available responses 300
      CreateVersionResult.success response.botVersion

/-- One entry of `response['botAliasSummaries']` (lines 43-45). -/
structure BotAliasSummary where
  botAliasId : String
  botAliasName : String
deriving DecidableEq

/-- The `for alias in response['botAliasSummaries']` scan (lines 43-46):
first summary whose `botAliasName` matches wins, else `None`. -/
def findAliasId (alias_name : String) : List BotAliasSummary → Option String
  | [] => none
  | a :: rest =>
      if a.botAliasName = alias_name then some a.botAliasId
      else findAliasId alias_name rest

/-- `get_alias_id` (lines 37-49).  A `ClientError` from `list_bot_aliases` is
caught and yields `None` (lines 47-49); any other exception is uncaught and
propagates to the caller, hence the `Except String` layer. -/
def get_alias_id (listResp : Except LexErr (List BotAliasSummary))
    (alias_name : String) : Except String (Option String) :=
  match listResp with
  | Except.ok summaries => Except.ok (findAliasId alias_name summaries)
  | Except.error (LexErr.clientError _ _) => Except.ok none
  | Except.error (LexErr.exc msg) => Except.error msg

/-- The keyword arguments passed to `client.update_bot_alias` (lines 169-181);
`localeEnabled` is the `botAliasLocaleSettings['en_US']['enabled']` flag. -/
structure UpdateBotAliasRequest where
  botAliasId : String
  botAliasName : String
  botId : String
  description : String
  botVersion : String
  localeEnabled : Bool
deriving DecidableEq

/-- The part of an `update_bot_alias` response the caller reads (lines 184-185). -/
structure UpdateBotAliasResponse where
  botAliasStatus : String
  botVersion : String
deriving DecidableEq

/-- Observable outcome of `update_bot_alias`: `True` (line 191), or `False`
after printing `Could not find alias` (lines 163-164), or `False` after
printing the `ClientError` message (line 194), or `False` after printing the
unexpected exception (line 197). -/
inductive UpdateAliasOutcome where
  | success
  | aliasNotFound
  | clientFailure (printed : String)
  | unexpectedFailure (printed : String)
deriving DecidableEq

/-- `update_bot_alias` (lines 146-198), returning its outcome paired with the
list of `update_bot_alias` API requests actually issued.  The source's
`if not alias_id:` treats both `None` and an empty-string id as missing. -/
def update_bot_alias (listResp : Except LexErr (List BotAliasSummary))
    (updateCall : UpdateBotAliasRequest → Except LexErr UpdateBotAliasResponse)
    (bot_id alias_name new_version : String) :
    UpdateAliasOutcome × List UpdateBotAliasRequest :=
  match get_alias_id listResp alias_name with
  | Except.error msg => (UpdateAliasOutcome.unexpectedFailure msg, [])
  | Except.ok none => (UpdateAliasOutcome.aliasNotFound, [])
  | Except.ok (some alias_id) =>
      if alias_id = "" then (UpdateAliasOutcome.aliasNotFound, [])
      else
        let request : UpdateBotAliasRequest :=
          { botAliasId := alias_id
            botAliasName := alias_name
            botId := bot_id
            description := "Updated to version " ++ new_version ++ " via SDK"
            botVersion := new_version
            localeEnabled := true }
        match updateCall request with
        | Except.ok _ => (UpdateAliasOutcome.success, [request])
        | Except.error (LexErr.clientError _ msg) =>
            (UpdateAliasOutcome.clientFailure msg, [request])
        | Except.error (LexErr.exc msg) =>
            (UpdateAliasOutcome.unexpectedFailure msg, [request])

/-! ## Session identifier generation
(`generate_session_id`, `lex_session_manager.py` lines 41-47, and the
`SESSION_ID` of `interactive_chat.py` line 44) -/

/-- One hexadecimal digit as rendered by Python's `'%x'` format. -/
def hexDigit : Nat → Char
  | 0 => '0' | 1 => '1' | 2 => '2' | 3 => '3'
  | 4 => '4' | 5 => '5' | 6 => '6' | 7 => '7'
  | 8 => '8' | 9 => '9' | 10 => 'a' | 11 => 'b'
  | 12 => 'c' | 13 => 'd' | 14 => 'e' | _ => 'f'

/-- Fixed-width big-endian hexadecimal rendering (`'%032x' % n` for
`len = 32`). -/
def toHexFixed : Nat → Nat → List Char
  | 0, _ => []
  | len + 1, n => toHexFixed len (n / 16) ++ [hexDigit (n % 16)]

/-- The bits `uuid.UUID.__init__` clears for a version-4 UUID:
`int &= ~(0xc000 << 48)` and `int &= ~(0xf000 << 64)`, as a positive mask on
128 bits. -/
def uuidClearMask : Nat := (2 ^ 128 - 1) ^^^ ((0xc000 <<< 48) ||| (0xf000 <<< 64))

/-- The bits `uuid.UUID.__init__` sets for a version-4 UUID:
`int |= 0x8000 << 48` (RFC 4122 variant) and `int |= 4 << 76` (version). -/
def uuidSetMask : Nat := (0x8000 <<< 48) ||| (4 <<< 76)

/-- `uuid.uuid4()` as a 128-bit integer: 16 random bytes (`r`, reduced mod
`2^128`) with the variant and version bits forced. -/
def uuid4_int (r : Nat) : Nat := ((r % 2 ^ 128) &&& uuidClearMask) ||| uuidSetMask

/-- `str(uuid)` hyphen placement: `8-4-4-4-12` over the 32 hex digits. -/
def hyphenate (l : List Char) : List Char :=
  l.take 8 ++ '-' ::
    ((l.drop 8).take 4 ++ '-' ::
      ((l.drop 12).take 4 ++ '-' ::
        ((l.drop 16).take 4 ++ '-' :: l.drop 20)))

/-- `str(uuid.uuid4())` for the random draw `r`. -/
def uuid4_str (r : Nat) : List Char := hyphenate (toHexFixed 32 (uuid4_int r))

/-- `generate_session_id` (lines 41-47): the f-string
`f'session-\x7buuid.uuid4()\x7d'`, with the 16 random bytes `r` supplied by
the environment. -/
def generate_session_id (r : Nat) : String :=
  String.mk ("session-".data ++ uuid4_str r)

/-- The `datetime.now().strftime('%Y%m%d-%H%M%S')` stamp of
`interactive_chat.py`: a rendering of the wall clock truncated to whole
seconds.  We model the clock in milliseconds and abstract the calendar
arithmetic as the decimal rendering of the epoch-second count; what matters is
that the output depends only on `nowMillis / 1000`. -/
def strftime_timestamp (epochSeconds : Nat) : List Char :=
  Nat.toDigits 10 epochSeconds

/-- The `SESSION_ID` of `interactive_chat.py` (line 44):
`f"session-\x7bdatetime.now().strftime('%Y%m%d-%H%M%S')\x7d"`. -/
def chat_session_id (nowMillis : Nat) : String :=
  String.mk ("session-".data ++ strftime_timestamp (nowMillis / 1000))

/-! ## Concrete scripted endpoints used to instantiate the theorems -/

/-- A scripted remote conversation endpoint: every turn answers with the same
in-progress intent and a one-key attribute bag. -/
def demoEchoClient : RecognizeTextRequest → Except LexErr LexResponse := fun _ =>
  Except.ok
    { messages := some [{ content := some "Large or small?" }]
      sessionState := some
        { intent := some
            { name := some "OrderPizza", state := some "InProgress", slots := none }
          sessionAttributes := some [("customerName", "John")] } }

/-- A two-turn conversation against `demoEchoClient`. -/
def demoTrace : List TraceEntry :=
  simulate_loop demoEchoClient "b" "a" "l" "s" ["Hello", "Large"] 1 []

/-- First entry of `demoTrace`. -/
def demoEntry0 : TraceEntry := (demoTrace.get? 0).getD defaultTraceEntry

/-- Second entry of `demoTrace`. -/
def demoEntry1 : TraceEntry := (demoTrace.get? 1).getD defaultTraceEntry

/-- A scripted endpoint that fails with a `ClientError` on the utterance
`"Large"` and succeeds otherwise. -/
def demoFlakyClient : RecognizeTextRequest → Except LexErr LexResponse := fun req =>
  if req.text = "Large" then
    Except.error (LexErr.clientError "DependencyFailedException" "backend down")
  else
    Except.ok
      { messages := some [{ content := some "ok" }]
        sessionState := some
          { intent := some
              { name := some "OrderPizza", state := some "InProgress", slots := none }
            sessionAttributes := some [] } }

/-- A three-utterance script against `demoFlakyClient`; the second turn fails. -/
def demoFlakyTrace : List TraceEntry :=
  simulate_loop demoFlakyClient "b" "a" "l" "s" ["Hello", "Large", "Pepperoni"] 1 []

/-! # Theorems -/

/-! ## Dictionary lemmas -/

theorem dictLookup_dictInsert_ne (k k' v : String) (bag : AttrBag) (h : k ≠ k') :
    dictLookup k (dictInsert k' v bag) = dictLookup k bag := by
  induction bag with
  | nil => simp [dictInsert, dictLookup, Ne.symm h]
  | cons p rest ih =>
      obtain ⟨k₀, v₀⟩ := p
      by_cases hk : k₀ = k'
      · subst hk
        simp [dictInsert, dictLookup, Ne.symm h]
      · simp only [dictInsert, hk, if_false]
        by_cases hk0 : k₀ = k <;> simp [dictLookup, hk0, ih]

/-! ## Polling-loop lemmas -/

theorem waitLoop_stop (responses : Nat → Except LexErr DescribeBotVersionResponse)
    (max_wait_time k t : Nat) (h : ¬ t < max_wait_time) :
    waitLoop responses max_wait_time k t = (WaitOutcome.timeout, 0) := by
  rw [waitLoop]
  simp [h]

theorem waitLoop_cont (responses : Nat → Except LexErr DescribeBotVersionResponse)
    (max_wait_time k t : Nat) (h : t < max_wait_time)
    (hnt : nonterminalResp (responses k)) :
    waitLoop responses max_wait_time k t =
      ((waitLoop responses max_wait_time (k + 1) (t + 15)).1,
       (waitLoop responses max_wait_time (k + 1) (t + 15)).2 + 1) := by
  rcases hnt with ⟨r, hr, hA, hF⟩ | ⟨msg, hr⟩
  · rw [waitLoop]; simp [h, hr, hA, hF]
  · rw [waitLoop]; simp [h, hr]

theorem waitLoop_timeout_of_nonterminal
    (responses : Nat → Except LexErr DescribeBotVersionResponse) (max_wait_time : Nat) :
    ∀ fuel t k, max_wait_time ≤ t + 15 * fuel →
      (∀ i, t + 15 * i < max_wait_time → nonterminalResp (responses (k + i))) →
      (waitLoop responses max_wait_time k t).1 = WaitOutcome.timeout := by
  intro fuel
  induction fuel with
  | zero =>
      intro t k hfuel _
      rw [waitLoop_stop responses max_wait_time k t (by omega)]
  | succ n ih =>
      intro t k hfuel hnt
      by_cases h : t < max_wait_time
      · have h0 : nonterminalResp (responses k) := by
          simpa using hnt 0 (by omega)
        rw [waitLoop_cont responses max_wait_time k t h h0]
        exact ih (t + 15) (k + 1) (by omega) (fun i hi => by
          have hx := hnt (i + 1) (by omega)
          have he : k + (i + 1) = k + 1 + i := by omega
          rwa [he] at hx)
      · rw [waitLoop_stop responses max_wait_time k t h]

theorem waitLoop_buildingify
    (responses : Nat → Except LexErr DescribeBotVersionResponse) (max_wait_time : Nat) :
    ∀ fuel t k, max_wait_time ≤ t + 15 * fuel →
      waitLoop (buildingify responses) max_wait_time k t =
        waitLoop responses max_wait_time k t := by
  intro fuel
  induction fuel with
  | zero =>
      intro t k hfuel
      rw [waitLoop_stop _ _ _ _ (by omega : ¬ t < max_wait_time),
        waitLoop_stop _ _ _ _ (by omega : ¬ t < max_wait_time)]
  | succ n ih =>
      intro t k hfuel
      by_cases h : t < max_wait_time
      · have hih := ih (t + 15) (k + 1) (by omega)
        conv_lhs => rw [waitLoop]
        conv_rhs => rw [waitLoop]
        rcases hr : responses k with e | r
        · rcases e with ⟨code, msg⟩ | msg
          · by_cases hc : code = "ResourceNotFoundException"
            · subst hc
              simp [h, hr, buildingify, hih,
                show ("Building" : String) ≠ "Available" by decide,
                show ("Building" : String) ≠ "Failed" by decide]
            · simp [h, hr, buildingify, hc]
          · simp [h, hr, buildingify]
        · by_cases hA : r.botStatus = "Available"
          · simp [h, hr, buildingify, hA]
          · by_cases hF : r.botStatus = "Failed"
            · simp [h, hr, buildingify, hA, hF]
            · simp [h, hr, buildingify, hA, hF, hih]
      · rw [waitLoop_stop _ _ _ _ h, waitLoop_stop _ _ _ _ h]

theorem waitLoop_skip
    (responses : Nat → Except LexErr DescribeBotVersionResponse) (max_wait_time : Nat) :
    ∀ j k t, (∀ i, i < j → nonterminalResp (responses (k + i))) →
      t + 15 * j < max_wait_time →
      waitLoop responses max_wait_time k t =
        ((waitLoop responses max_wait_time (k + j) (t + 15 * j)).1,
         (waitLoop responses max_wait_time (k + j) (t + 15 * j)).2 + j) := by
  intro j
  induction j with
  | zero => intro k t _ _; simp
  | succ n ih =>
      intro k t hnt hlt
      have h : t < max_wait_time := by omega
      have h0 : nonterminalResp (responses k) := by simpa using hnt 0 (by omega)
      rw [waitLoop_cont responses max_wait_time k t h h0]
      have hrec := ih (k + 1) (t + 15) (fun i hi => by
          have hx := hnt (i + 1) (by omega)
          have he : k + (i + 1) = k + 1 + i := by omega
          rwa [he] at hx)
        (by omega)
      rw [hrec]
      have e1 : k + 1 + n = k + (n + 1) := by omega
      have e2 : t + 15 + 15 * n = t + 15 * (n + 1) := by ring
      rw [e1, e2]
      simp [Nat.add_assoc]

/-! ## Claims about the polling loop -/

/-- C2: in `wait_for_bot_version_available` a `ResourceNotFoundException` from
the status poll is treated identically to a `Building` status (sleep and
retry), and if no terminal status is observed within the caller-configurable
`max_wait_time` the loop returns the timeout failure instead of hanging. -/
theorem wait_treats_notfound_as_building_and_times_out
    (responses : Nat → Except LexErr DescribeBotVersionResponse) (max_wait_time : Nat) :
    wait_for_bot_version_available (buildingify responses) max_wait_time =
      wait_for_bot_version_available responses max_wait_time
    ∧ ((∀ i, 15 * i < max_wait_time → nonterminalResp (responses i)) →
        (wait_for_bot_version_available responses max_wait_time).1 =
          WaitOutcome.timeout) := by
  constructor
  · exact waitLoop_buildingify responses max_wait_time max_wait_time 0 0 (by omega)
  · intro hnt
    exact waitLoop_timeout_of_nonterminal responses max_wait_time max_wait_time 0 0
      (by omega) (fun i hi => by simpa using hnt i (by omega))

theorem wait_treats_notfound_as_building_and_times_out_witness :
    wait_for_bot_version_available
        (buildingify
          (fun _ => Except.error (LexErr.clientError "ResourceNotFoundException" "nf")))
        40 =
      wait_for_bot_version_available
        (fun _ => Except.error (LexErr.clientError "ResourceNotFoundException" "nf")) 40
    ∧ (wait_for_bot_version_available
        (fun _ => Except.error (LexErr.clientError "ResourceNotFoundException" "nf"))
        40).1 = WaitOutcome.timeout :=
  ⟨(wait_treats_notfound_as_building_and_times_out _ 40).1,
   (wait_treats_notfound_as_building_and_times_out _ 40).2
     (fun _ _ => Or.inr ⟨"nf", rfl⟩)⟩

/-- C10: during polling, any `ClientError` other than
`ResourceNotFoundException`, and any unexpected exception, aborts the loop on
its first occurrence with a failure carrying the error, after exactly `j + 1`
polls (no retry). -/
theorem poll_error_aborts_immediately
    (responses : Nat → Except LexErr DescribeBotVersionResponse)
    (max_wait_time j : Nat) (code msg : String)
    (hpre : ∀ i, i < j → nonterminalResp (responses i))
    (hwin : 15 * j < max_wait_time) :
    (responses j = Except.error (LexErr.clientError code msg) →
        code ≠ "ResourceNotFoundException" →
        wait_for_bot_version_available responses max_wait_time =
          (WaitOutcome.pollError msg, j + 1))
    ∧ (responses j = Except.error (LexErr.exc msg) →
        wait_for_bot_version_available responses max_wait_time =
          (WaitOutcome.unexpected msg, j + 1)) := by
  have hskip := waitLoop_skip responses max_wait_time j 0 0
    (fun i hi => by simpa using hpre i hi) (by omega)
  simp only [Nat.zero_add] at hskip
  constructor
  · intro hj hc
    unfold wait_for_bot_version_available
    rw [hskip, waitLoop]
    simp [show 15 * j < max_wait_time from hwin, hj, hc, Nat.add_comm]
  · intro hj
    unfold wait_for_bot_version_available
    rw [hskip, waitLoop]
    simp [show 15 * j < max_wait_time from hwin, hj, Nat.add_comm]

theorem poll_error_aborts_immediately_witness :
    wait_for_bot_version_available
        (fun i => if i < 2 then Except.ok { botStatus := "Building" }
          else Except.error (LexErr.clientError "InternalServerException" "boom")) 300 =
      (WaitOutcome.pollError "boom", 3) :=
  (poll_error_aborts_immediately
      (fun i => if i < 2 then Except.ok { botStatus := "Building" }
        else Except.error (LexErr.clientError "InternalServerException" "boom"))
      300 2 "InternalServerException" "boom"
      (fun i hi => Or.inl ⟨{ botStatus := "Building" }, by simp [hi], by decide, by decide⟩)
      (by decide)).1 rfl (by decide)

/-- C4 (the code, at the failing input): `create_bot_version` returns the new
version as a success even though the polling wait reports that the build
failed — the source discards the return value of
`wait_for_bot_version_available` at line 87. -/
theorem create_bot_version_ignores_failed_wait :
    create_bot_version (Except.ok { botVersion := "2", botStatus := "Creating" })
        (fun _ => Except.ok { botStatus := "Failed" }) = CreateVersionResult.success "2"
    ∧ (wait_for_bot_version_available (fun _ => Except.ok { botStatus := "Failed" }) 300).1 =
        WaitOutcome.buildFailed := by
  constructor
  · rfl
  · unfold wait_for_bot_version_available
    rw [waitLoop]
    simp [show ("Failed" : String) ≠ "Available" by decide]

/-! ## Claims about the conversation loop -/

theorem simulate_loop_head (client : RecognizeTextRequest → Except LexErr LexResponse)
    (b a l s : String) :
    ∀ (steps : List String) (i : Nat) (attrs : AttrBag) (e : TraceEntry),
      (simulate_loop client b a l s steps i attrs).get? 0 = some e →
      e.attrsIn = attrs ∧ e.turnIndex = i := by
  intro steps i attrs e he
  cases steps with
  | nil => simp [simulate_loop] at he
  | cons message rest =>
      rcases hsend : send_message_to_bot client b a l s message (some attrs)
        with t | p | p <;>
        · simp only [simulate_loop, hsend, List.get?] at he
          obtain rfl := Option.some.inj he
          exact ⟨rfl, rfl⟩

/-- C1: across `simulate_multi_turn_conversation`, the attribute bag presented
to turn `k + 1` is exactly the bag returned by turn `k` with the two
`turn_{k}` bookkeeping keys assigned, so a key from an earlier turn survives
unless one of those assignments overwrites it. -/
theorem runScript_threads_attribute_bag
    (client : RecognizeTextRequest → Except LexErr LexResponse) (b a l s : String) :
    ∀ (steps : List String) (i : Nat) (attrs : AttrBag) (k : Nat) (e e' : TraceEntry),
      (simulate_loop client b a l s steps i attrs).get? k = some e →
      (simulate_loop client b a l s steps i attrs).get? (k + 1) = some e' →
      ∃ t, e.result = SendResult.success t
        ∧ e'.attrsIn = dictInsert (turnKey e.turnIndex "_state") t.intent_state
            (dictInsert (turnKey e.turnIndex "_intent") t.intent_name
              t.session_attributes)
        ∧ ∀ key, key ≠ turnKey e.turnIndex "_state" →
            key ≠ turnKey e.turnIndex "_intent" →
            dictLookup key e'.attrsIn = dictLookup key t.session_attributes := by
  intro steps
  induction steps with
  | nil => intro i attrs k e e' he _; simp [simulate_loop] at he
  | cons message rest ih =>
      intro i attrs k e e' he he'
      rcases hsend : send_message_to_bot client b a l s message (some attrs)
        with t | p | p
      · simp only [simulate_loop, hsend] at he he'
        cases k with
        | zero =>
            simp only [List.get?] at he
            obtain rfl := Option.some.inj he
            simp only [List.get?, Nat.zero_add] at he'
            obtain ⟨hattr, _⟩ := simulate_loop_head client b a l s rest (i + 1) _ e' he'
            refine ⟨t, rfl, ?_, ?_⟩
            · exact hattr
            · intro key hks hki
              rw [hattr, dictLookup_dictInsert_ne _ _ _ _ hks,
                dictLookup_dictInsert_ne _ _ _ _ hki]
        | succ m =>
            simp only [List.get?] at he he'
            exact ih (i + 1) _ m e e' he he'
      · simp only [simulate_loop, hsend, List.get?] at he'
        rcases k with _ | m <;> simp at he'
      · simp only [simulate_loop, hsend, List.get?] at he'
        rcases k with _ | m <;> simp at he'

theorem runScript_threads_attribute_bag_witness :
    ∃ t, demoEntry0.result = SendResult.success t
      ∧ demoEntry1.attrsIn = dictInsert (turnKey demoEntry0.turnIndex "_state")
          t.intent_state
          (dictInsert (turnKey demoEntry0.turnIndex "_intent") t.intent_name
            t.session_attributes)
      ∧ ∀ key, key ≠ turnKey demoEntry0.turnIndex "_state" →
          key ≠ turnKey demoEntry0.turnIndex "_intent" →
          dictLookup key demoEntry1.attrsIn = dictLookup key t.session_attributes :=
  runScript_threads_attribute_bag demoEchoClient "b" "a" "l" "s"
    ["Hello", "Large"] 1 [] 0 demoEntry0 demoEntry1 (by rfl) (by rfl)

/-- C6: the conversation loop sends the utterances in order (the trace's
utterances are an initial segment of the script), every entry before the last
succeeded, and if the trace is shorter than the script then its last entry is
the failed turn — nothing is sent after a failure. -/
theorem simulate_conversation_stops_at_first_failure
    (client : RecognizeTextRequest → Except LexErr LexResponse) (b a l s : String) :
    ∀ (steps : List String) (i : Nat) (attrs : AttrBag) (tr : List TraceEntry),
      tr = simulate_loop client b a l s steps i attrs →
      tr.map TraceEntry.utterance = steps.take tr.length
      ∧ tr.length ≤ steps.length
      ∧ (∀ k e, tr.get? k = some e → k + 1 < tr.length → sendOk e.result = true)
      ∧ (tr.length < steps.length →
          ∃ e, tr.get? (tr.length - 1) = some e ∧ sendOk e.result = false) := by
  intro steps
  induction steps with
  | nil =>
      intro i attrs tr htr
      subst htr
      simp [simulate_loop]
  | cons message rest ih =>
      intro i attrs tr htr
      rcases hsend : send_message_to_bot client b a l s message (some attrs)
        with t | p | p
      · simp only [simulate_loop, hsend] at htr
        obtain ⟨ihmap, ihlen, ihok, ihlast⟩ :=
          ih (i + 1)
            (dictInsert (turnKey i "_state") t.intent_state
              (dictInsert (turnKey i "_intent") t.intent_name t.session_attributes))
            (simulate_loop client b a l s rest (i + 1)
              (dictInsert (turnKey i "_state") t.intent_state
                (dictInsert (turnKey i "_intent") t.intent_name t.session_attributes)))
            rfl
        subst htr
        refine ⟨?_, ?_, ?_, ?_⟩
        · simp [List.take, ihmap]
        · simpa using ihlen
        · intro k e he hk
          cases k with
          | zero =>
              simp only [List.get?] at he
              obtain rfl := Option.some.inj he
              simp [sendOk]
          | succ m =>
              simp only [List.get?] at he
              exact ihok m e he (by simpa using hk)
        · intro hlt
          have hlt' : (simulate_loop client b a l s rest (i + 1)
              (dictInsert (turnKey i "_state") t.intent_state
                (dictInsert (turnKey i "_intent") t.intent_name
                  t.session_attributes))).length < rest.length := by
            simpa using hlt
          obtain ⟨e, he, hfail⟩ := ihlast hlt'
          refine ⟨e, ?_, hfail⟩
          rcases hn : (simulate_loop client b a l s rest (i + 1)
              (dictInsert (turnKey i "_state") t.intent_state
                (dictInsert (turnKey i "_intent") t.intent_name
                  t.session_attributes))).length with _ | m
          · rw [List.length_eq_zero.mp hn] at he
            simp at he
          · rw [hn] at he
            simpa [hn] using he
      · simp only [simulate_loop, hsend] at htr
        subst htr
        refine ⟨by simp [List.take], by simp, ?_, ?_⟩
        · intro k e he hk
          simp at hk
        · intro _
          exact ⟨_, rfl, rfl⟩
      · simp only [simulate_loop, hsend] at htr
        subst htr
        refine ⟨by simp [List.take], by simp, ?_, ?_⟩
        · intro k e he hk
          simp at hk
        · intro _
          exact ⟨_, rfl, rfl⟩

theorem simulate_conversation_stops_at_first_failure_witness :
    demoFlakyTrace.map TraceEntry.utterance =
      ["Hello", "Large", "Pepperoni"].take demoFlakyTrace.length
    ∧ demoFlakyTrace.length ≤ 3
    ∧ (∀ k e, demoFlakyTrace.get? k = some e → k + 1 < demoFlakyTrace.length →
        sendOk e.result = true)
    ∧ (demoFlakyTrace.length < 3 →
        ∃ e, demoFlakyTrace.get? (demoFlakyTrace.length - 1) = some e
          ∧ sendOk e.result = false) :=
  simulate_conversation_stops_at_first_failure demoFlakyClient "b" "a" "l" "s"
    ["Hello", "Large", "Pepperoni"] 1 [] demoFlakyTrace rfl

/-! ## Claims about a single turn -/

/-- C5: when the remote call raises, `send_message_to_bot` returns the failure
result of the matching handler — carrying the service's literal error message
(`e.response['Error']['Message']` for a `ClientError`, `str(e)` otherwise) —
instead of letting the exception propagate to the caller's loop. -/
theorem send_message_failure_carries_raw_error
    (client : RecognizeTextRequest → Except LexErr LexResponse)
    (bot_id bot_alias_id locale_id session_id message : String)
    (session_attributes : Option AttrBag) (code msg : String) :
    (client (mk_request bot_id bot_alias_id locale_id session_id message
          session_attributes) = Except.error (LexErr.clientError code msg) →
        send_message_to_bot client bot_id bot_alias_id locale_id session_id message
          session_attributes = SendResult.clientFailure msg)
    ∧ (client (mk_request bot_id bot_alias_id locale_id session_id message
          session_attributes) = Except.error (LexErr.exc msg) →
        send_message_to_bot client bot_id bot_alias_id locale_id session_id message
          session_attributes = SendResult.unexpectedFailure msg) := by
  constructor <;> intro h <;> simp [send_message_to_bot, h]

theorem send_message_failure_carries_raw_error_witness :
    send_message_to_bot
        (fun _ => Except.error
          (LexErr.clientError "DependencyFailedException" "backend down"))
        "b" "a" "l" "s" "Hello" none = SendResult.clientFailure "backend down" :=
  (send_message_failure_carries_raw_error
      (fun _ => Except.error
        (LexErr.clientError "DependencyFailedException" "backend down"))
      "b" "a" "l" "s" "Hello" none "DependencyFailedException" "backend down").1 rfl

/-- C8: with an absent (`None`) or empty attribute bag the outbound request
omits the `sessionState` entry entirely, and the call behaves identically to
one made with no attributes at all. -/
theorem empty_attributes_omitted_from_request
    (client : RecognizeTextRequest → Except LexErr LexResponse)
    (bot_id bot_alias_id locale_id session_id message : String)
    (session_attributes : Option AttrBag)
    (h : session_attributes = none ∨ session_attributes = some []) :
    (mk_request bot_id bot_alias_id locale_id session_id message
        session_attributes).sessionState = none
    ∧ mk_request bot_id bot_alias_id locale_id session_id message
        session_attributes =
      mk_request bot_id bot_alias_id locale_id session_id message none
    ∧ send_message_to_bot client bot_id bot_alias_id locale_id session_id message
        session_attributes =
      send_message_to_bot client bot_id bot_alias_id locale_id session_id
        message none := by
  rcases h with h | h <;> subst h <;> exact ⟨rfl, rfl, rfl⟩

theorem empty_attributes_omitted_from_request_witness :
    (mk_request "b" "a" "l" "s" "Hello" (some [])).sessionState = none
    ∧ mk_request "b" "a" "l" "s" "Hello" (some []) =
        mk_request "b" "a" "l" "s" "Hello" none
    ∧ send_message_to_bot demoEchoClient "b" "a" "l" "s" "Hello" (some []) =
        send_message_to_bot demoEchoClient "b" "a" "l" "s" "Hello" none :=
  empty_attributes_omitted_from_request demoEchoClient "b" "a" "l" "s" "Hello"
    (some []) (Or.inr rfl)

/-- C9: missing response fields are defaulted silently and the call still
succeeds: no or empty `messages` gives `bot_message = ""`; a missing
`sessionState` or `intent` gives intent name and state `"Unknown"` and empty
slots; missing `sessionAttributes` gives an empty bag; missing `slots` gives
an empty slot map; and an `ok` response always yields a success result. -/
theorem missing_response_fields_default (response : LexResponse) :
    ((response.messages = none ∨ response.messages = some []) →
        (parse_response response).bot_message = "")
    ∧ (response.sessionState = none →
        (parse_response response).intent_name = "Unknown"
        ∧ (parse_response response).intent_state = "Unknown"
        ∧ (parse_response response).slots = []
        ∧ (parse_response response).session_attributes = [])
    ∧ (∀ ss, response.sessionState = some ss → ss.intent = none →
        (parse_response response).intent_name = "Unknown"
        ∧ (parse_response response).intent_state = "Unknown"
        ∧ (parse_response response).slots = [])
    ∧ (∀ ss, response.sessionState = some ss → ss.sessionAttributes = none →
        (parse_response response).session_attributes = [])
    ∧ (∀ ss it, response.sessionState = some ss → ss.intent = some it →
        it.slots = none → (parse_response response).slots = [])
    ∧ (∀ client bot_id bot_alias_id locale_id session_id message
          session_attributes,
        client (mk_request bot_id bot_alias_id locale_id session_id message
            session_attributes) = Except.ok response →
        send_message_to_bot client bot_id bot_alias_id locale_id session_id
            message session_attributes =
          SendResult.success (parse_response response)) := by
  refine ⟨?_, ?_, ?_, ?_, ?_, ?_⟩
  · rintro (h | h) <;> simp [parse_response, h]
  · intro h
    simp [parse_response, h, emptySessionState, emptyIntent]
  · intro ss hss hit
    simp [parse_response, hss, hit, emptyIntent]
  · intro ss hss hsa
    simp [parse_response, hss, hsa]
  · intro ss it hss hit hsl
    simp [parse_response, hss, hit, hsl]
  · intro client bot_id bot_alias_id locale_id session_id message
      session_attributes h
    simp [send_message_to_bot, h]

theorem missing_response_fields_default_witness :
    (parse_response { messages := none, sessionState := none }).bot_message = ""
    ∧ (parse_response { messages := none, sessionState := none }).intent_name =
        "Unknown"
    ∧ (parse_response { messages := none, sessionState := none }).intent_state =
        "Unknown"
    ∧ (parse_response { messages := none, sessionState := none }).slots = []
    ∧ (parse_response { messages := none, sessionState := none }).session_attributes
        = []
    ∧ send_message_to_bot (fun _ => Except.ok { messages := none, sessionState := none })
        "b" "a" "l" "s" "Hello" none =
      SendResult.success (parse_response { messages := none, sessionState := none }) :=
  ⟨(missing_response_fields_default { messages := none, sessionState := none }).1
      (Or.inl rfl),
   ((missing_response_fields_default { messages := none, sessionState := none }).2.1
      rfl).1,
   ((missing_response_fields_default { messages := none, sessionState := none }).2.1
      rfl).2.1,
   ((missing_response_fields_default { messages := none, sessionState := none }).2.1
      rfl).2.2.1,
   ((missing_response_fields_default { messages := none, sessionState := none }).2.1
      rfl).2.2.2,
   (missing_response_fields_default
      { messages := none, sessionState := none }).2.2.2.2.2
      (fun _ => Except.ok { messages := none, sessionState := none })
      "b" "a" "l" "s" "Hello" none rfl⟩

/-! ## Claims about the alias update -/

theorem findAliasId_eq_none (alias_name : String) :
    ∀ summaries : List BotAliasSummary,
      (∀ a ∈ summaries, a.botAliasName ≠ alias_name) →
      findAliasId alias_name summaries = none := by
  intro summaries
  induction summaries with
  | nil => intro _; rfl
  | cons a rest ih =>
      intro h
      have ha : a.botAliasName ≠ alias_name := h a (List.mem_cons_self a rest)
      simp only [findAliasId, ha, if_false]
      exact ih (fun b hb => h b (List.mem_cons_of_mem a hb))

/-- C3: when no listed alias carries the requested name, `update_bot_alias`
fails with the alias-not-found outcome and issues no `update_bot_alias` API
call at all. -/
theorem update_alias_missing_name_no_call
    (summaries : List BotAliasSummary)
    (updateCall : UpdateBotAliasRequest → Except LexErr UpdateBotAliasResponse)
    (bot_id alias_name new_version : String)
    (habsent : ∀ a ∈ summaries, a.botAliasName ≠ alias_name) :
    update_bot_alias (Except.ok summaries) updateCall bot_id alias_name
      new_version = (UpdateAliasOutcome.aliasNotFound, []) := by
  simp [update_bot_alias, get_alias_id, findAliasId_eq_none alias_name summaries habsent]

theorem update_alias_missing_name_no_call_witness :
    update_bot_alias
        (Except.ok [{ botAliasId := "TSTALIASID", botAliasName := "TestBotAlias" }])
        (fun _ => Except.ok { botAliasStatus := "Updating", botVersion := "2" })
        "B123" "DEMO" "2" = (UpdateAliasOutcome.aliasNotFound, []) :=
  update_alias_missing_name_no_call
    [{ botAliasId := "TSTALIASID", botAliasName := "TestBotAlias" }]
    (fun _ => Except.ok { botAliasStatus := "Updating", botVersion := "2" })
    "B123" "DEMO" "2" (by decide)

/-! ## Claims about session identifiers -/

theorem toHexFixed_length : ∀ len n : Nat, (toHexFixed len n).length = len := by
  intro len
  induction len with
  | zero => intro n; rfl
  | succ p ih => intro n; simp [toHexFixed, ih]

theorem hexDigit_fin_inj : ∀ a b : Fin 16, hexDigit a.val = hexDigit b.val → a = b := by
  decide

theorem hexDigit_mod_ne_dash (n : Nat) : hexDigit (n % 16) ≠ '-' := by
  have h : n % 16 < 16 := Nat.mod_lt _ (by norm_num)
  have hall : ∀ a : Fin 16, hexDigit a.val ≠ '-' := by decide
  exact hall ⟨n % 16, h⟩

theorem mem_toHexFixed_ne_dash :
    ∀ (len n : Nat) (c : Char), c ∈ toHexFixed len n → c ≠ '-' := by
  intro len
  induction len with
  | zero => intro n c hc; simp [toHexFixed] at hc
  | succ p ih =>
      intro n c hc
      simp only [toHexFixed, List.mem_append, List.mem_singleton] at hc
      rcases hc with hc | hc
      · exact ih _ c hc
      · subst hc; exact hexDigit_mod_ne_dash n

theorem toHexFixed_inj : ∀ len m n : Nat, m < 16 ^ len → n < 16 ^ len →
    toHexFixed len m = toHexFixed len n → m = n := by
  intro len
  induction len with
  | zero =>
      intro m n hm hn _
      simp only [pow_zero, Nat.lt_one_iff] at hm hn
      omega
  | succ p ih =>
      intro m n hm hn h
      simp only [toHexFixed] at h
      obtain ⟨h1, h2⟩ := List.append_inj h
        (by rw [toHexFixed_length, toHexFixed_length])
      have hd : m % 16 = n % 16 := by
        have hmm : m % 16 < 16 := Nat.mod_lt _ (by norm_num)
        have hnn : n % 16 < 16 := Nat.mod_lt _ (by norm_num)
        have hfin := hexDigit_fin_inj ⟨m % 16, hmm⟩ ⟨n % 16, hnn⟩ (by simpa using h2)
        simpa using congrArg Fin.val hfin
      have hq : m / 16 = n / 16 := by
        apply ih
        · refine Nat.div_lt_of_lt_mul ?_
          rw [pow_succ] at hm
          omega
        · refine Nat.div_lt_of_lt_mul ?_
          rw [pow_succ] at hn
          omega
        · exact h1
      omega

theorem filter_hyphenate (l : List Char) (h : ∀ c ∈ l, c ≠ '-') :
    (hyphenate l).filter (fun c => c != '-') = l := by
  have hp : ∀ s : List Char, s ⊆ l → s.filter (fun c => c != '-') = s := by
    intro s hs
    refine List.filter_eq_self.mpr ?_
    intro c hc
    simpa [bne_iff_ne] using h c (hs hc)
  have h1 : (l.drop 16).take 4 ++ l.drop 20 = l.drop 16 := by
    have e : l.drop 20 = (l.drop 16).drop 4 := by rw [List.drop_drop]
    rw [e, List.take_append_drop]
  have h2 : (l.drop 12).take 4 ++ l.drop 16 = l.drop 12 := by
    have e : l.drop 16 = (l.drop 12).drop 4 := by rw [List.drop_drop]
    rw [e, List.take_append_drop]
  have h3 : (l.drop 8).take 4 ++ l.drop 12 = l.drop 8 := by
    have e : l.drop 12 = (l.drop 8).drop 4 := by rw [List.drop_drop]
    rw [e, List.take_append_drop]
  have h4 : l.take 8 ++ l.drop 8 = l := List.take_append_drop 8 l
  simp only [hyphenate, List.filter_append, List.filter_cons, bne_self_eq_false,
    Bool.false_eq_true, if_false]
  rw [hp (l.take 8) (List.take_subset 8 l),
    hp ((l.drop 8).take 4) ((List.take_subset 4 _).trans (List.drop_subset 8 l)),
    hp ((l.drop 12).take 4) ((List.take_subset 4 _).trans (List.drop_subset 12 l)),
    hp ((l.drop 16).take 4) ((List.take_subset 4 _).trans (List.drop_subset 16 l)),
    hp (l.drop 20) (List.drop_subset 20 l),
    h1, h2, h3, h4]

theorem uuid4_int_lt (r : Nat) : uuid4_int r < 2 ^ 128 := by
  have h1 : (r % 2 ^ 128) &&& uuidClearMask < 2 ^ 128 :=
    lt_of_le_of_lt Nat.and_le_left (Nat.mod_lt _ (by norm_num))
  have h2 : uuidSetMask < 2 ^ 128 := by decide
  exact Nat.or_lt_two_pow h1 h2

theorem uuid4_str_inj (r r' : Nat) (h : uuid4_str r = uuid4_str r') :
    uuid4_int r = uuid4_int r' := by
  have hf := filter_hyphenate (toHexFixed 32 (uuid4_int r))
    (fun c hc => mem_toHexFixed_ne_dash 32 _ c hc)
  have hf' := filter_hyphenate (toHexFixed 32 (uuid4_int r'))
    (fun c hc => mem_toHexFixed_ne_dash 32 _ c hc)
  have hx : toHexFixed 32 (uuid4_int r) = toHexFixed 32 (uuid4_int r') := by
    rw [← hf, ← hf']
    unfold uuid4_str at h
    rw [h]
  have hpow : (16 : Nat) ^ 32 = 2 ^ 128 := by norm_num
  exact toHexFixed_inj 32 _ _ (hpow ▸ uuid4_int_lt r) (hpow ▸ uuid4_int_lt r') hx

/-- C7 (counterexample to the claim as stated): `interactive_chat.py` builds
its session identifier from a seconds-granularity timestamp, so two session
starts within the same wall-clock second — here 1000 ms and 1999 ms after the
epoch — receive the identical identifier. -/
theorem chat_session_id_collision :
    chat_session_id 1000 = chat_session_id 1999 ∧ (1000 : Nat) ≠ 1999 :=
  ⟨rfl, by decide⟩

/-- C7 (amended): `generate_session_id` in `lex_session_manager.py` embeds a
version-4 UUID, so two calls whose random draws differ after the forced
version/variant bits always produce distinct identifiers (collisions require
the 122 free random bits to coincide, which has cryptographically negligible
probability); but the session identifier of `interactive_chat.py` is
timestamp-based and collides within a single second. -/
theorem session_id_generators_uniqueness :
    (∀ r r' : Nat, uuid4_int r ≠ uuid4_int r' →
      generate_session_id r ≠ generate_session_id r')
    ∧ chat_session_id 1000 = chat_session_id 1999 := by
  constructor
  · intro r r' hne heq
    apply hne
    apply uuid4_str_inj
    have hlist : "session-".data ++ uuid4_str r = "session-".data ++ uuid4_str r' := by
      injection heq
    exact List.append_cancel_left hlist
  · rfl

theorem session_id_generators_uniqueness_witness :
    uuid4_int 0 ≠ uuid4_int 1 ∧ generate_session_id 0 ≠ generate_session_id 1 :=
  ⟨by decide, session_id_generators_uniqueness.1 0 1 (by decide)⟩

end LexDemo
